import Mathlib

/-
Verification of the content tools of the PPT_Generate repository
(src/Office-PowerPoint-MCP-Server/tools/content_tools.py).

The Python module is embedded shallowly:
  * the python-pptx document model becomes plain Lean structures
    (a presentation holds slides, a slide holds shapes and placeholders,
    a text frame is a list of paragraphs, a paragraph a list of runs);
  * every call into the external utility libraries (ppt_utils, the OpenAI
    client, the file system) becomes an explicit function parameter that
    returns `Except String`, mirroring a Python call that may raise;
  * each tool returns its result dictionary as a `ToolResult` value, the
    updated presentation registry, and a trace of the delegate / file
    system effects it performed, so that theorems can speak about
    "no mutation happened" and "no file was touched".

Machine integers do not occur: all Python ints involved are unbounded.
-/

set_option autoImplicit false

namespace ContentTools

/-! ## Document model -/

/-- Font attributes of a text run (or the paragraph-level font).
`none` models a python-pptx attribute left at `None` (inherited). -/
structure RunFont where
  bold : Option Bool := none
  italic : Option Bool := none
  underline : Option Bool := none
  size : Option Int := none
  name : Option String := none
  color : Option (List Int) := none
  deriving DecidableEq, Repr, Inhabited

/-- A text run: a span of text with one formatting set. -/
structure Run where
  text : String
  font : RunFont := {}
  hyperlink : Option String := none
  deriving DecidableEq, Repr, Inhabited

/-- A paragraph of a text frame: its runs plus the paragraph-level font. -/
structure Paragraph where
  runs : List Run := []
  font : RunFont := {}
  deriving DecidableEq, Repr, Inhabited

/-- A text frame is an ordered list of paragraphs. -/
abbrev TextFrame := List Paragraph

/-- A shape on a slide.  `hasTextFrame` models `shape.has_text_frame` /
`hasattr(shape, 'text_frame')`; position and size are the python-pptx
EMU integers. -/
structure Shape where
  hasTextFrame : Bool := true
  frame : TextFrame := []
  left : Int := 0
  top : Int := 0
  width : Int := 0
  height : Int := 0
  deriving DecidableEq, Repr, Inhabited

/-- A placeholder of a slide, keyed by its `idx` value as in python-pptx. -/
structure Placeholder where
  idx : Nat
  text : String := ""
  deriving DecidableEq, Repr, Inhabited

/-- A slide: its shapes in document order and its placeholder collection. -/
structure Slide where
  shapes : List Shape := []
  placeholders : List Placeholder := []
  deriving DecidableEq, Repr, Inhabited

/-- A slide layout; `name` is `none` when the object has no name attribute. -/
structure Layout where
  name : Option String := none
  deriving DecidableEq, Repr, Inhabited

/-- An in-memory presentation document. -/
structure Pres where
  slides : List Slide := []
  layouts : List Layout := []
  deriving DecidableEq, Repr, Inhabited

/-- The server-level registry mapping presentation ids to open documents. -/
abbrev Registry := List (String × Pres)

/-! ## Small Python-semantics helpers -/

/-- Truthiness of an optional string (`if title:` in Python): `None` and the
empty string are falsy. -/
def pyTruthyStr : Option String → Bool
  | none => false
  | some s => !(s == "")

/-- Truthiness of an optional list (`if background_colors:` in Python):
`None` and the empty list are falsy. -/
def pyTruthyList {α : Type} : Option (List α) → Bool
  | none => false
  | some l => !l.isEmpty

/-- Python `x or default` on an optional int: `None` and `0` give the
default (`font_size or 12`). -/
def pyOrInt (v : Option Int) (d : Int) : Int :=
  match v with
  | none => d
  | some x => if x = 0 then d else x

/-- Python `text or None` on a string: the empty string becomes `None`. -/
def pyOrStr (s : String) : Option String :=
  if s == "" then none else some s

/-- Python `tuple(color) if color else None`: an absent or empty list
becomes `None`. -/
def pyListOpt (c : Option (List Int)) : Option (List Int) :=
  match c with
  | none => none
  | some l => if l.isEmpty then none else some l

/-- The uniform error template `f"Failed to <verb>: <message>"` used by
every catch-all handler of the tools. -/
def failedMsg (verb msg : String) : String :=
  "Failed to " ++ verb ++ ": " ++ msg

/-- The message produced by the shared slide-index guard
(`f"Invalid slide index: ... Available slides: 0-..."`). -/
def invalidSlideMsg (slide_index : Int) (numSlides : Nat) : String :=
  "Invalid slide index: " ++ toString slide_index ++ ". " ++
    ("Available slides: 0-" ++ toString ((numSlides : Int) - 1))

/-- Rendering of an optional index inside an f-string (`None` prints as
the word None). -/
def optIdxStr : Option Int → String
  | none => "None"
  | some i => toString i

/-- The message produced by the shape-index guards of manage_text
(`ctx` is "formatting", "validation" or "format_runs"). -/
def invalidShapeMsg (ctx : String) (shape_index : Option Int) (numShapes : Nat) : String :=
  "Invalid shape index for " ++ ctx ++ ": " ++ optIdxStr shape_index ++ ". " ++
    ("Available shapes: 0-" ++ toString ((numShapes : Int) - 1))

/-- Whether `pat` occurs as a leading block of `hay`. -/
def leadingBlock : List Char → List Char → Bool
  | [], _ => true
  | _ :: _, [] => false
  | a :: as, b :: bs => a == b && leadingBlock as bs

/-- Whether `pat` occurs contiguously anywhere inside `hay`. -/
def hasSubList (pat : List Char) : List Char → Bool
  | [] => pat.isEmpty
  | c :: rest => leadingBlock pat (c :: rest) || hasSubList pat rest

/-- A message "names the valid range" ending at index `hi` when it contains
the text `0-hi` somewhere. -/
def namesRange0to (msg : String) (hi : Int) : Prop :=
  hasSubList ("0-" ++ toString hi).data msg.data = true

/-- A message mentions the valid slide range of an `n`-slide document when it
ends in the code's `Available slides: 0-(n-1)` text. -/
def mentionsSlideRange (msg : String) (n : Nat) : Prop :=
  ∃ pre, msg = pre ++ ("Available slides: 0-" ++ toString ((n : Int) - 1))

/-- A message mentions the valid shape range of an `n`-shape slide when it
ends in the code's `Available shapes: 0-(n-1)` text. -/
def mentionsShapeRange (msg : String) (n : Nat) : Prop :=
  ∃ pre, msg = pre ++ ("Available shapes: 0-" ++ toString ((n : Int) - 1))

/-! ## Validation helpers

The validation predicates are handed to `register_content_tools` by the
server main file, which is outside the repository slice under `src/`; the
tool functions therefore stay parametric in them, exactly as the Python
function is.  Concrete instances used by witnesses are modelled from the
spec. -/

/-- Modelled from the spec: the `is_valid_rgb` validation helper (defined in
the server main file, which is not part of this source slice) accepts a
value that is a 3-element list of integers each within 0..255. -/
def is_valid_rgb (c : List Int) : Bool :=
  c.length == 3 && c.all (fun v => decide (0 ≤ v) && decide (v ≤ 255))

/-- Modelled from the spec: the `is_positive` validation helper (defined in
the server main file, which is not part of this source slice) accepts a
positive number. -/
def is_positive (v : Int) : Bool :=
  decide (0 < v)

/-- One prepared validation entry: parameter name, outcome of its predicate
on the supplied value, and the message used on failure. -/
abbrev ValidationCheck := String × Bool × String

/-- Modelled from the spec: `validate_parameters` (defined in the server
main file, which is not part of this source slice) aggregates all
validation failures into one error message. -/
def validate_parameters (checks : List ValidationCheck) : Bool × String :=
  let failures := checks.filter (fun c => !c.2.1)
  (failures.isEmpty,
   String.intercalate "; " (failures.map (fun c => c.1 ++ " " ++ c.2.2)))

/-- The validations dictionary built by manage_text: one entry per supplied
optional parameter among font_size, color and bg_color. -/
def mtValidations (isPos : Int → Bool) (vrgb : List Int → Bool)
    (font_size : Option Int) (color bg_color : Option (List Int)) :
    List ValidationCheck :=
  (match font_size with
   | some v => [("font_size", isPos v, "must be a positive integer")]
   | none => []) ++
  (match color with
   | some c => [("color", vrgb c, "must be a valid RGB list [R, G, B] with values 0-255")]
   | none => []) ++
  (match bg_color with
   | some c => [("bg_color", vrgb c, "must be a valid RGB list [R, G, B] with values 0-255")]
   | none => [])

/-! ## format_runs: caller-supplied run dictionaries and frame rebuilding -/

/-- A value appearing in a run dictionary (other than the text itself). -/
inductive RunVal where
  | b (v : Bool)
  | n (v : Int)
  | s (v : String)
  | rgb (v : List Int)
  deriving DecidableEq, Repr

/-- One caller-supplied run dictionary of the `text_runs` argument; a field
is `none` when the corresponding key is absent from the dictionary. -/
structure RunData where
  text : Option String := none
  bold : Option Bool := none
  italic : Option Bool := none
  underline : Option Bool := none
  font_size : Option Int := none
  font_name : Option String := none
  color : Option (List Int) := none
  hyperlink : Option String := none
  deriving DecidableEq, Repr, Inhabited

/-- The `formatting_applied` dictionary reported for a run: every key of the
run dictionary except `text`, with its value (the Python code copies the
entries verbatim, whether or not they were actually applied). -/
def RunData.appliedFormatting (rd : RunData) : List (String × RunVal) :=
  (match rd.bold with | some v => [("bold", RunVal.b v)] | none => []) ++
  (match rd.italic with | some v => [("italic", RunVal.b v)] | none => []) ++
  (match rd.underline with | some v => [("underline", RunVal.b v)] | none => []) ++
  (match rd.font_size with | some v => [("font_size", RunVal.n v)] | none => []) ++
  (match rd.font_name with | some v => [("font_name", RunVal.s v)] | none => []) ++
  (match rd.color with | some v => [("color", RunVal.rgb v)] | none => []) ++
  (match rd.hyperlink with | some v => [("hyperlink", RunVal.s v)] | none => [])

/-- Build the fresh run added for a run dictionary: each optional attribute
is applied independently; a color is applied only when it passes the
`is_valid_rgb` predicate handed to the tool. -/
def buildRun (vrgb : List Int → Bool) (rd : RunData) (t : String) : Run :=
  { text := t
    font :=
      { bold := rd.bold
        italic := rd.italic
        underline := rd.underline
        size := rd.font_size
        name := rd.font_name
        color :=
          match rd.color with
          | some c => if vrgb c then some c else none
          | none => none }
    hyperlink := rd.hyperlink }

/-- One entry of the `formatted_runs` list of the response. -/
structure FormattedRun where
  text : String
  formatting_applied : List (String × RunVal)
  deriving DecidableEq, Repr

/-- One iteration of the format_runs loop.  A run dictionary without a
`text` key is skipped.  Otherwise the Python code asks
`if not text_frame.paragraphs:` and would read `paragraphs[0]` — which can
only raise IndexError, since that branch is taken exactly when there is no
paragraph at all; on the (always taken) other branch `add_paragraph()`
appends a fresh paragraph receiving the new run. -/
def formatRunsStep (vrgb : List Int → Bool)
    (acc : TextFrame × List FormattedRun) (rd : RunData) :
    Except String (TextFrame × List FormattedRun) :=
  match rd.text with
  | none => .ok acc
  | some t =>
    if acc.1.isEmpty then
      .error "list index out of range"
    else
      .ok (acc.1 ++ [{ runs := [buildRun vrgb rd t] }],
           acc.2 ++ [⟨t, rd.appliedFormatting⟩])

/-- The whole rebuild performed by format_runs after `text_frame.clear()`:
python-pptx `TextFrame.clear` removes all paragraphs except a single empty
one, which is the initial frame of the fold. -/
def formatRunsBody (vrgb : List Int → Bool) (runs : List RunData) :
    Except String (TextFrame × List FormattedRun) :=
  runs.foldlM (formatRunsStep vrgb) ([{ runs := [] }], [])

/-! ## Tool results, registry resolution -/

/-- The payload of a successful validate operation:
`needs_optimization` plus the rest of the dictionary kept opaque. -/
structure VRes where
  needs_optimization : Bool
  info : String := ""
  deriving DecidableEq, Repr

/-- The formatting keyword arguments forwarded to
`ppt_utils.add_textbox` / `ppt_utils.format_text_advanced`. -/
structure TextFormat where
  font_size : Option Int
  font_name : Option String
  bold : Option Bool
  italic : Option Bool
  underline : Option Bool
  color : Option (List Int)
  bg_color : Option (List Int)
  alignment : Option String
  vertical_alignment : Option String
  deriving DecidableEq, Repr

/-- The result dictionary returned by a tool call: one constructor per
distinct success payload shape, plus the uniform error dictionary. -/
inductive ToolResult where
  | err (msg : String)
  | addSlideOk (message : String) (slide_index : Int) (layout_name : String)
  | slideInfo (info : String)
  | msgOnly (message : String)
  | addTextOk (message : String) (shape_index : Int) (text : String)
  | validateOk (base : VRes) (fix : Option String)
  | formatRunsOk (message : String) (slide_index : Int) (shape_index : Int)
      (formatted_runs : List FormattedRun)
  | addImageOk (message : String) (shape_index : Int) (image_path : Option String)
  | enhanceOk (message : String) (enhanced_path : String)
  deriving DecidableEq, Repr

/-- A file-system effect performed by manage_image. -/
inductive FsEvent where
  | stat (path : String)
  | read (path : String)
  | write (path : String)
  | delete (path : String)
  deriving DecidableEq, Repr

/-- `pres_id = presentation_id if presentation_id is not None else
get_current_presentation_id()`. -/
def resolveId (presentation_id currentId : Option String) : Option String :=
  match presentation_id with
  | some p => some p
  | none => currentId

/-- Dictionary lookup in the presentations registry. -/
def lookupPres (presentations : Registry) (pid : String) : Option Pres :=
  match presentations.find? (fun e => e.1 == pid) with
  | some e => some e.2
  | none => none

/-- Write back the (possibly mutated) presentation under its id. -/
def setPres : Registry → String → Pres → Registry
  | [], _, _ => []
  | e :: rest, pid, p =>
    if e.1 == pid then (pid, p) :: rest else e :: setPres rest pid p

/-- The shared prologue of every tool: resolve the target id, fail when it
is absent or unknown, then run the tool body on the resolved document and
write the result back. -/
def runTool {τ : Type} (presentations : Registry)
    (currentId presentation_id : Option String)
    (core : Pres → ToolResult × Pres × List τ) :
    ToolResult × Registry × List τ :=
  match resolveId presentation_id currentId with
  | none =>
    (.err "No presentation is currently loaded or the specified ID is invalid",
     presentations, [])
  | some pid =>
    match lookupPres presentations pid with
    | none =>
      (.err "No presentation is currently loaded or the specified ID is invalid",
       presentations, [])
    | some pres =>
      let r := core pres
      (r.1, setPres presentations pid r.2.1, r.2.2)

/-! ## Tool bodies

Each `_core` function mirrors the body of the registered Python tool after
the registry prologue; the wrappers of the same name as the Python tool
compose the prologue with the body via `runTool`.  Every `ppt_utils`
delegate is an explicit function parameter returning `Except String`
(a raised Python exception becomes the `.error` case); the trace records
which delegates were invoked. -/

/-- Body of `add_slide`: layout-index guard, delegated slide creation,
optional title, and the mutually exclusive background styles.  The
delegates transform the whole document (the Python code mutates the slide
object held inside it). -/
def add_slide_core
    (uAddSlide : Pres → Int → Except String (Pres × Layout))
    (uSetTitle : Pres → String → Except String Pres)
    (uGradient : Pres → List Int → List Int → String → Except String Pres)
    (uProfGradient : Pres → String → String → String → Except String Pres)
    (layout_index : Int) (title : Option String)
    (background_type : Option String)
    (background_colors : Option (List (List Int)))
    (gradient_direction color_scheme : String)
    (pres : Pres) : ToolResult × Pres × List String :=
  if layout_index < 0 ∨ (pres.layouts.length : Int) ≤ layout_index then
    (.err ("Invalid layout index: " ++ toString layout_index ++
           ". Available layouts: 0-" ++ toString ((pres.layouts.length : Int) - 1)),
     pres, [])
  else
    match uAddSlide pres layout_index with
    | .error e => (.err (failedMsg "add slide" e), pres, ["ppt_utils.add_slide"])
    | .ok (p1, layout) =>
      let slide_index : Int := (p1.slides.length : Int) - 1
      match (if pyTruthyStr title then
               ((uSetTitle p1 (title.getD "")).map (fun p => (p, ["ppt_utils.set_title"])))
             else .ok (p1, [])) with
      | .error e => (.err (failedMsg "add slide" e), p1, ["ppt_utils.add_slide", "ppt_utils.set_title"])
      | .ok (p2, titleTrace) =>
        match (if background_type == some "gradient" && pyTruthyList background_colors &&
                  decide (2 ≤ (background_colors.getD []).length) then
                 ((uGradient p2 ((background_colors.getD []).getD 0 [])
                     ((background_colors.getD []).getD 1 []) gradient_direction).map
                   (fun p => (p, ["ppt_utils.set_slide_gradient_background"])))
               else if background_type == some "professional_gradient" then
                 ((uProfGradient p2 color_scheme "subtle" gradient_direction).map
                   (fun p => (p, ["ppt_utils.create_professional_gradient_background"])))
               else .ok (p2, [])) with
        | .error e =>
          (.err (failedMsg "add slide" e), p2, ["ppt_utils.add_slide"] ++ titleTrace)
        | .ok (p3, bgTrace) =>
          (.addSlideOk ("Added slide " ++ toString slide_index ++
                        " with layout " ++ toString layout_index)
             slide_index
             (match layout.name with
              | some nm => nm
              | none => "Layout " ++ toString layout_index),
           p3, ["ppt_utils.add_slide"] ++ titleTrace ++ bgTrace)

/-- The `add_slide` tool. -/
def add_slide (presentations : Registry) (currentId : Option String)
    (uAddSlide : Pres → Int → Except String (Pres × Layout))
    (uSetTitle : Pres → String → Except String Pres)
    (uGradient : Pres → List Int → List Int → String → Except String Pres)
    (uProfGradient : Pres → String → String → String → Except String Pres)
    (layout_index : Int) (title : Option String)
    (background_type : Option String)
    (background_colors : Option (List (List Int)))
    (gradient_direction color_scheme : String)
    (presentation_id : Option String) : ToolResult × Registry × List String :=
  runTool presentations currentId presentation_id
    (add_slide_core uAddSlide uSetTitle uGradient uProfGradient layout_index
      title background_type background_colors gradient_direction color_scheme)

/-- Body of `get_slide_info`: slide-index guard, then one delegated query. -/
def get_slide_info_core
    (uGetInfo : Slide → Int → Except String String)
    (slide_index : Int) (pres : Pres) : ToolResult × Pres × List String :=
  if slide_index < 0 ∨ (pres.slides.length : Int) ≤ slide_index then
    (.err (invalidSlideMsg slide_index pres.slides.length), pres, [])
  else
    match uGetInfo (pres.slides.getD slide_index.toNat default) slide_index with
    | .error e => (.err (failedMsg "get slide info" e), pres, ["ppt_utils.get_slide_info"])
    | .ok info => (.slideInfo info, pres, ["ppt_utils.get_slide_info"])

/-- The `get_slide_info` tool. -/
def get_slide_info (presentations : Registry) (currentId : Option String)
    (uGetInfo : Slide → Int → Except String String)
    (slide_index : Int) (presentation_id : Option String) :
    ToolResult × Registry × List String :=
  runTool presentations currentId presentation_id
    (get_slide_info_core uGetInfo slide_index)

/-- Body of `populate_placeholder`: slide-index guard, then the delegated
placeholder write inside the catch-all.  The placeholder index itself is
never inspected by the tool; its validity is entirely the delegate's
affair. -/
def populate_placeholder_core
    (uPopulate : Slide → Int → String → Except String Slide)
    (slide_index placeholder_idx : Int) (text : String)
    (pres : Pres) : ToolResult × Pres × List String :=
  if slide_index < 0 ∨ (pres.slides.length : Int) ≤ slide_index then
    (.err (invalidSlideMsg slide_index pres.slides.length), pres, [])
  else
    match uPopulate (pres.slides.getD slide_index.toNat default) placeholder_idx text with
    | .error e =>
      (.err (failedMsg "populate placeholder" e), pres, ["ppt_utils.populate_placeholder"])
    | .ok sl2 =>
      (.msgOnly ("Populated placeholder " ++ toString placeholder_idx ++
                 " on slide " ++ toString slide_index),
       { pres with slides := pres.slides.set slide_index.toNat sl2 },
       ["ppt_utils.populate_placeholder"])

/-- The `populate_placeholder` tool. -/
def populate_placeholder (presentations : Registry) (currentId : Option String)
    (uPopulate : Slide → Int → String → Except String Slide)
    (slide_index placeholder_idx : Int) (text : String)
    (presentation_id : Option String) : ToolResult × Registry × List String :=
  runTool presentations currentId presentation_id
    (populate_placeholder_core uPopulate slide_index placeholder_idx text)

/-- python-pptx placeholder access `slide.placeholders[idx]`: raises
KeyError when no placeholder of the slide carries that idx value (message
modelled without the KeyError quoting). -/
def getPlaceholder (sl : Slide) (i : Int) : Except String Placeholder :=
  match sl.placeholders.find? (fun p => ((p.idx : Int)) == i) with
  | some p => .ok p
  | none => .error ("no placeholder on this slide with idx == " ++ toString i)

/-- Body of `add_bullet_points`: slide-index guard, then — inside the
catch-all — the raw `slide.placeholders[placeholder_idx]` access followed
by the delegated bullet write.  No bounds check of `placeholder_idx`
happens in the tool. -/
def add_bullet_points_core
    (uAddBullets : Placeholder → List String → Except String Placeholder)
    (slide_index placeholder_idx : Int) (bullet_points : List String)
    (pres : Pres) : ToolResult × Pres × List String :=
  if slide_index < 0 ∨ (pres.slides.length : Int) ≤ slide_index then
    (.err (invalidSlideMsg slide_index pres.slides.length), pres, [])
  else
    let sl := pres.slides.getD slide_index.toNat default
    match getPlaceholder sl placeholder_idx with
    | .error e => (.err (failedMsg "add bullet points" e), pres, [])
    | .ok ph =>
      match uAddBullets ph bullet_points with
      | .error e =>
        (.err (failedMsg "add bullet points" e), pres, ["ppt_utils.add_bullet_points"])
      | .ok ph2 =>
        let sl2 := { sl with placeholders :=
          sl.placeholders.map (fun q => if q.idx == ph.idx then ph2 else q) }
        (.msgOnly ("Added " ++ toString bullet_points.length ++
                   " bullet points to placeholder " ++ toString placeholder_idx ++
                   " on slide " ++ toString slide_index),
         { pres with slides := pres.slides.set slide_index.toNat sl2 },
         ["ppt_utils.add_bullet_points"])

/-- The `add_bullet_points` tool. -/
def add_bullet_points (presentations : Registry) (currentId : Option String)
    (uAddBullets : Placeholder → List String → Except String Placeholder)
    (slide_index placeholder_idx : Int) (bullet_points : List String)
    (presentation_id : Option String) : ToolResult × Registry × List String :=
  runTool presentations currentId presentation_id
    (add_bullet_points_core uAddBullets slide_index placeholder_idx bullet_points)

/-- The shared shape-index precondition of the format / validate /
format_runs operations: `shape_index is None or shape_index < 0 or
shape_index >= len(slide.shapes)`. -/
def shapeIdxBad (shape_index : Option Int) (numShapes : Nat) : Bool :=
  match shape_index with
  | none => true
  | some i => decide (i < 0) || decide ((numShapes : Int) ≤ i)

/-- Body of `manage_text`: the slide-index guard, the declarative
parameter validation, then the four string-tagged sub-operations.  The
`add`, `format` and `validate` operations delegate to `ppt_utils`; the
`format_runs` operation rebuilds the chosen shape's text frame in place. -/
def manage_text_core
    (isPos : Int → Bool) (vrgb : List Int → Bool)
    (uAddTextbox : Pres → Int → Int → Int → Int → String → TextFormat → Bool → Except String Pres)
    (uFormatAdvanced : Pres → Int → TextFormat → Except String Pres)
    (uValidateFit : Shape → Option String → Int → Except String VRes)
    (uFix : Pres → Int → Int → Except String (String × Pres))
    (slide_index : Int) (operation : String)
    (left top width height : Int) (text : String)
    (shape_index : Option Int) (text_runs : Option (List RunData))
    (font_size : Option Int) (font_name : Option String)
    (bold italic underline : Option Bool)
    (color bg_color : Option (List Int))
    (alignment vertical_alignment : Option String)
    (auto_fit validation_only : Bool)
    (min_font_size max_font_size : Int)
    (pres : Pres) : ToolResult × Pres × List String :=
  if slide_index < 0 ∨ (pres.slides.length : Int) ≤ slide_index then
    (.err (invalidSlideMsg slide_index pres.slides.length), pres, [])
  else
    let checks := mtValidations isPos vrgb font_size color bg_color
    match (if checks.isEmpty then none
           else match validate_parameters checks with
                | (true, _) => none
                | (false, e) => some e) with
    | some e => (.err e, pres, [])
    | none =>
      let sl := pres.slides.getD slide_index.toNat default
      let fmt : TextFormat :=
        ⟨font_size, font_name, bold, italic, underline,
         pyListOpt color, pyListOpt bg_color, alignment, vertical_alignment⟩
      if operation == "add" then
        match uAddTextbox pres left top width height text fmt auto_fit with
        | .error e =>
          (.err (failedMsg (operation ++ " text") e), pres, ["ppt_utils.add_textbox"])
        | .ok p1 =>
          (.addTextOk ("Added text box to slide " ++ toString slide_index)
             (((p1.slides.getD slide_index.toNat default).shapes.length : Int) - 1) text,
           p1, ["ppt_utils.add_textbox"])
      else if operation == "format" then
        if shapeIdxBad shape_index sl.shapes.length then
          (.err (invalidShapeMsg "formatting" shape_index sl.shapes.length), pres, [])
        else
          match uFormatAdvanced pres (shape_index.getD 0).toNat fmt with
          | .error e =>
            (.err (failedMsg (operation ++ " text") e), pres, ["ppt_utils.format_text_advanced"])
          | .ok p1 =>
            (.msgOnly ("Formatted text shape " ++ optIdxStr shape_index ++
                       " on slide " ++ toString slide_index),
             p1, ["ppt_utils.format_text_advanced"])
      else if operation == "validate" then
        if shapeIdxBad shape_index sl.shapes.length then
          (.err (invalidShapeMsg "validation" shape_index sl.shapes.length), pres, [])
        else
          match uValidateFit (sl.shapes.getD (shape_index.getD 0).toNat default)
                  (pyOrStr text) (pyOrInt font_size 12) with
          | .error e =>
            (.err (failedMsg (operation ++ " text") e), pres, ["ppt_utils.validate_text_fit"])
          | .ok vres =>
            if !validation_only && vres.needs_optimization then
              match uFix pres min_font_size max_font_size with
              | .error e =>
                (.err (failedMsg (operation ++ " text") e), pres,
                 ["ppt_utils.validate_text_fit", "ppt_utils.validate_and_fix_slide"])
              | .ok (fixInfo, p1) =>
                (.validateOk vres (some fixInfo), p1,
                 ["ppt_utils.validate_text_fit", "ppt_utils.validate_and_fix_slide"])
            else
              (.validateOk vres none, pres, ["ppt_utils.validate_text_fit"])
      else if operation == "format_runs" then
        if shapeIdxBad shape_index sl.shapes.length then
          (.err (invalidShapeMsg "format_runs" shape_index sl.shapes.length), pres, [])
        else if !pyTruthyList text_runs then
          (.err "text_runs parameter is required for format_runs operation", pres, [])
        else
          let shape := sl.shapes.getD (shape_index.getD 0).toNat default
          if !shape.hasTextFrame then
            (.err "Shape does not contain text", pres, [])
          else
            match formatRunsBody vrgb (text_runs.getD []) with
            | .error e => (.err (failedMsg (operation ++ " text") e), pres, [])
            | .ok (frame2, fruns) =>
              let shape2 := { shape with frame := frame2 }
              let shapes2 := sl.shapes.set (shape_index.getD 0).toNat shape2
              let sl2 := { sl with shapes := shapes2 }
              (.formatRunsOk ("Applied formatting to " ++ toString fruns.length ++
                              " text runs on shape " ++ optIdxStr shape_index)
                 slide_index (shape_index.getD 0) fruns,
               { pres with slides := pres.slides.set slide_index.toNat sl2 }, [])
      else
        (.err ("Invalid operation: " ++ operation ++
               ". Must be add, format, validate, or format_runs"), pres, [])

/-- The `manage_text` tool. -/
def manage_text (presentations : Registry) (currentId : Option String)
    (isPos : Int → Bool) (vrgb : List Int → Bool)
    (uAddTextbox : Pres → Int → Int → Int → Int → String → TextFormat → Bool → Except String Pres)
    (uFormatAdvanced : Pres → Int → TextFormat → Except String Pres)
    (uValidateFit : Shape → Option String → Int → Except String VRes)
    (uFix : Pres → Int → Int → Except String (String × Pres))
    (slide_index : Int) (operation : String)
    (left top width height : Int) (text : String)
    (shape_index : Option Int) (text_runs : Option (List RunData))
    (font_size : Option Int) (font_name : Option String)
    (bold italic underline : Option Bool)
    (color bg_color : Option (List Int))
    (alignment vertical_alignment : Option String)
    (auto_fit validation_only : Bool)
    (min_font_size max_font_size : Int)
    (presentation_id : Option String) : ToolResult × Registry × List String :=
  runTool presentations currentId presentation_id
    (manage_text_core isPos vrgb uAddTextbox uFormatAdvanced uValidateFit uFix
      slide_index operation left top width height text shape_index text_runs
      font_size font_name bold italic underline color bg_color
      alignment vertical_alignment auto_fit validation_only
      min_font_size max_font_size)

/-- Body of `manage_image`: slide-index guard, then the `add` and
`enhance` sub-operations.  The base64 ingestion writes a transient
temporary file that is deleted only on the success path; enhancement
rejects base64 input outright before touching any file. -/
def manage_image_core
    (osExists : String → Bool)
    (b64decode : String → Except String String)
    (tempPath : String)
    (uAddImage : Pres → String → Int → Int → Option Int → Option Int → Except String Pres)
    (uProfEnhance : String → Option String → Except String String)
    (uPillowEnhance : String → Int → Int → Int → Int → Int → Option String →
       Option String → Except String String)
    (slide_index : Int) (operation image_source source_type : String)
    (left top : Int) (width height : Option Int)
    (enhancement_style : Option String)
    (brightness contrast saturation sharpness blur_radius : Int)
    (filter_type output_path : Option String)
    (pres : Pres) : ToolResult × Pres × List FsEvent :=
  if slide_index < 0 ∨ (pres.slides.length : Int) ≤ slide_index then
    (.err (invalidSlideMsg slide_index pres.slides.length), pres, [])
  else
    if operation == "add" then
      if source_type == "base64" then
        match b64decode image_source with
        | .error e => (.err (failedMsg "process base64 image" e), pres, [])
        | .ok _bytes =>
          match uAddImage pres tempPath left top width height with
          | .error e =>
            (.err (failedMsg "process base64 image" e), pres,
             [.write tempPath, .read tempPath])
          | .ok p1 =>
            (.addImageOk ("Added image from base64 to slide " ++ toString slide_index)
               (((p1.slides.getD slide_index.toNat default).shapes.length : Int) - 1) none,
             p1, [.write tempPath, .read tempPath, .delete tempPath])
      else
        if !osExists image_source then
          (.err ("Image file not found: " ++ image_source), pres, [.stat image_source])
        else
          match uAddImage pres image_source left top width height with
          | .error e =>
            (.err (failedMsg (operation ++ " image") e), pres,
             [.stat image_source, .read image_source])
          | .ok p1 =>
            (.addImageOk ("Added image to slide " ++ toString slide_index)
               (((p1.slides.getD slide_index.toNat default).shapes.length : Int) - 1)
               (some image_source),
             p1, [.stat image_source, .read image_source])
    else if operation == "enhance" then
      if source_type == "base64" then
        (.err "Enhancement operation requires file path, not base64 data", pres, [])
      else if !osExists image_source then
        (.err ("Image file not found: " ++ image_source), pres, [.stat image_source])
      else
        match (if enhancement_style == some "presentation" then
                 uProfEnhance image_source output_path
               else
                 uPillowEnhance image_source brightness contrast saturation
                   sharpness blur_radius filter_type output_path) with
        | .error e =>
          (.err (failedMsg (operation ++ " image") e), pres,
           [.stat image_source, .read image_source])
        | .ok enhanced_path =>
          (.enhanceOk ("Enhanced image: " ++ image_source) enhanced_path, pres,
           [.stat image_source, .read image_source, .write enhanced_path])
    else
      (.err ("Invalid operation: " ++ operation ++ ". Must be add or enhance"),
       pres, [])

/-- The `manage_image` tool. -/
def manage_image (presentations : Registry) (currentId : Option String)
    (osExists : String → Bool)
    (b64decode : String → Except String String)
    (tempPath : String)
    (uAddImage : Pres → String → Int → Int → Option Int → Option Int → Except String Pres)
    (uProfEnhance : String → Option String → Except String String)
    (uPillowEnhance : String → Int → Int → Int → Int → Int → Option String →
       Option String → Except String String)
    (slide_index : Int) (operation image_source source_type : String)
    (left top : Int) (width height : Option Int)
    (enhancement_style : Option String)
    (brightness contrast saturation sharpness blur_radius : Int)
    (filter_type output_path : Option String)
    (presentation_id : Option String) : ToolResult × Registry × List FsEvent :=
  runTool presentations currentId presentation_id
    (manage_image_core osExists b64decode tempPath uAddImage uProfEnhance
      uPillowEnhance slide_index operation image_source source_type left top
      width height enhancement_style brightness contrast saturation sharpness
      blur_radius filter_type output_path)

/-! ## Outline-driven content generation (`generate_content_from_outline`)

The function body is one big `try` block; every Python exception becomes
an `Except.error` flowing to the single `except` clause.  Each section of
the outline is carried as its serialized JSON text (the code only ever
feeds `json.dumps(current_section)` into the prompt). -/

/-- The parsed outline file: a record with a `sections` list. -/
structure Outline where
  sections : List String
  deriving DecidableEq, Repr

/-- The external collaborators of the generation routine: client
construction, the two file loads, the per-prompt completion call, and the
final save.  Each may raise. -/
structure GenEnv where
  newClient : Except String Unit
  loadOutline : Except String Outline
  loadTemplate : Except String Pres
  complete : String → Except String String
  save : Pres → Except String Unit

/-- The success/failure record returned by the generation routine. -/
structure GenResult where
  success : Bool
  message : Option String := none
  error : Option String := none
  output_path : Option String := none
  deriving DecidableEq, Repr

/-- `section_index = min(slide_index // 5, len(outline["sections"]) - 1)`:
Python subtraction on ints, so an empty section list yields `-1`. -/
def sectionIndexOf (slide_index numSections : Nat) : Int :=
  min ((slide_index / 5 : Nat) : Int) ((numSections : Int) - 1)

/-- CPython list indexing `sections[i]` with an `Int` index: a negative
index counts from the end; any miss raises IndexError. -/
def pySectionAt (sections : List String) (i : Int) : Except String String :=
  let j : Int := if i < 0 then (sections.length : Int) + i else i
  if j < 0 then .error "list index out of range"
  else
    match sections.get? j.toNat with
    | some s => .ok s
    | none => .error "list index out of range"

/-- The prompt assembled for one shape (serialization of the shape record
modelled as plain text; the exact JSON punctuation is immaterial here). -/
def buildPrompt (sectionJson : String) (shape : Shape) : String :=
  "根据以下大纲信息生成PPT内容：\n" ++ sectionJson ++
    "\n形状信息：\ntype: text, position: x=" ++ toString shape.left ++
    ", y=" ++ toString shape.top ++ ", size: width=" ++ toString shape.width ++
    ", height=" ++ toString shape.height ++
    "\n请生成适合该形状的专业PPT内容。"

/-- `shape.text_frame.text = generated_text`: all previous content is
replaced (modelled as a single paragraph holding the full string; the
newline-to-paragraph translation of python-pptx is immaterial here). -/
def setFrameText (t : String) : TextFrame :=
  [{ runs := [{ text := t }] }]

/-- The fixed style pass: every paragraph of the touched frame gets font
size 18 pt and the Microsoft YaHei typeface, unconditionally. -/
def applyStyle (f : TextFrame) : TextFrame :=
  f.map (fun p => { p with font := { p.font with size := some 18, name := some "Microsoft YaHei" } })

/-- Content generation for one shape: shapes without a text frame are left
alone; for the others one completion request is issued and the stripped
response replaces the whole text, followed by the fixed style pass. -/
def genShape (complete : String → Except String String) (sectionJson : String)
    (shape : Shape) : Except String Shape :=
  if shape.hasTextFrame then
    match complete (buildPrompt sectionJson shape) with
    | .error e => .error e
    | .ok content =>
      .ok { shape with frame := applyStyle (setFrameText content.trim) }
  else
    .ok shape

/-- Shape loop of one slide, in shape order; the first failure aborts. -/
def processShapes (complete : String → Except String String) (sectionJson : String) :
    List Shape → Except String (List Shape)
  | [] => .ok []
  | sh :: rest =>
    match genShape complete sectionJson sh with
    | .error e => .error e
    | .ok sh2 =>
      match processShapes complete sectionJson rest with
      | .error e => .error e
      | .ok rest2 => .ok (sh2 :: rest2)

/-- Content generation for one slide with its applicable section. -/
def processSlide (complete : String → Except String String) (sectionJson : String)
    (sl : Slide) : Except String Slide :=
  match processShapes complete sectionJson sl.shapes with
  | .error e => .error e
  | .ok shapes2 => .ok { sl with shapes := shapes2 }

/-- Slide loop of the generation routine: the slide at 0-based position `i`
uses the section at `min(i // 5, len(sections) - 1)`; the first failure
(including an IndexError of the section lookup) aborts everything. -/
def processSlides (complete : String → Except String String)
    (sections : List String) : Nat → List Slide → Except String (List Slide)
  | _, [] => .ok []
  | i, sl :: rest =>
    match pySectionAt sections (sectionIndexOf i sections.length) with
    | .error e => .error e
    | .ok sec =>
      match processSlide complete sec sl with
      | .error e => .error e
      | .ok sl2 =>
        match processSlides complete sections (i + 1) rest with
        | .error e => .error e
        | .ok rest2 => .ok (sl2 :: rest2)

/-- The whole `generate_content_from_outline` routine.  The second
component of the result records whether the output file was written: the
save step runs last, only after every slide was processed successfully. -/
def generate_content_from_outline (env : GenEnv) (output_path : String) :
    GenResult × Bool :=
  match env.newClient with
  | .error e => ({ success := false, error := some e }, false)
  | .ok _ =>
    match env.loadOutline with
    | .error e => ({ success := false, error := some e }, false)
    | .ok outline =>
      match env.loadTemplate with
      | .error e => ({ success := false, error := some e }, false)
      | .ok prs =>
        match processSlides env.complete outline.sections 0 prs.slides with
        | .error e => ({ success := false, error := some e }, false)
        | .ok slides2 =>
          match env.save { prs with slides := slides2 } with
          | .error e => ({ success := false, error := some e }, false)
          | .ok _ =>
            ({ success := true, message := some "PPT内容生成成功",
               output_path := some output_path }, true)

/-! ## Concrete sample documents used by witnesses -/

/-- A shape with a text frame holding some pre-existing text. -/
def sampleShape : Shape :=
  { hasTextFrame := true
    frame := [{ runs := [{ text := "old" }] }]
    left := 10, top := 20, width := 300, height := 100 }

/-- A slide holding one text shape and two placeholders (idx 0 and 1). -/
def sampleSlide : Slide :=
  { shapes := [sampleShape]
    placeholders := [⟨0, "t"⟩, ⟨1, "b"⟩] }

/-- A presentation with one slide and two layouts. -/
def samplePres : Pres :=
  { slides := [sampleSlide]
    layouts := [{ name := some "Title Slide" }, { name := none }] }

/-- A registry holding the sample presentation under the id `deck`. -/
def sampleRegistry : Registry := [("deck", samplePres)]

end ContentTools

namespace ContentTools

/-! ## Helper lemmas -/

/-- Writing back the exact presentation found under an id leaves the
registry unchanged. -/
theorem setPres_of_lookup (l : Registry) (pid : String) (p : Pres)
    (h : lookupPres l pid = some p) : setPres l pid p = l := by
  induction l with
  | nil => rfl
  | cons e rest ih =>
    rcases e with ⟨k, q⟩
    by_cases hb : k = pid
    · subst hb
      simp only [lookupPres, List.find?, beq_self_eq_true] at h
      simp only [Option.some.injEq] at h
      simp [setPres, h]
    · have hb2 : (k == pid) = false := beq_eq_false_iff_ne.mpr hb
      simp only [lookupPres, List.find?, hb2] at h
      simp only [setPres, hb2, if_neg, Bool.false_eq_true, if_false]
      rw [ih h]

/-- When the registry prologue resolves to a loaded presentation, the tool
runs its body on it and writes the resulting document back. -/
theorem runTool_loaded {τ : Type} (presentations : Registry)
    (currentId presentation_id : Option String) (pid : String) (p : Pres)
    (core : Pres → ToolResult × Pres × List τ)
    (hres : resolveId presentation_id currentId = some pid)
    (hfound : lookupPres presentations pid = some p) :
    runTool presentations currentId presentation_id core
      = ((core p).1, setPres presentations pid (core p).2.1, (core p).2.2) := by
  simp only [runTool, hres, hfound]

/-! ## C1: outline section distribution -/

/-- C1: in generate_content_from_outline, the slide at 0-based position i
uses the outline section at index min(i // 5, len(sections) - 1); with a
nonempty section list the lookup always succeeds at that index; for 3
sections, slides 0-4 use section 0, slides 5-9 section 1, slides 10-11
section 2; and every slide index at or beyond 5 * len(sections) clamps to
the last section. -/
theorem C1_section_distribution :
    (∀ i n : Nat, 0 < n →
        sectionIndexOf i n = ((min (i / 5) (n - 1) : Nat) : Int))
  ∧ (∀ ss : List String, ss ≠ [] → ∀ i : Nat,
        pySectionAt ss (sectionIndexOf i ss.length)
          = .ok (ss.getD (min (i / 5) (ss.length - 1)) ""))
  ∧ (∀ i : Nat,
        (i ≤ 4 → min (i / 5) (3 - 1) = 0)
      ∧ (5 ≤ i → i ≤ 9 → min (i / 5) (3 - 1) = 1)
      ∧ (10 ≤ i → i ≤ 11 → min (i / 5) (3 - 1) = 2))
  ∧ (∀ i n : Nat, 0 < n → 5 * n ≤ i → min (i / 5) (n - 1) = n - 1) := by
  refine ⟨?_, ?_, ?_, ?_⟩
  · intro i n hn
    simp only [sectionIndexOf]
    omega
  · intro ss hne i
    have hn : 0 < ss.length := List.length_pos.mpr hne
    have hcast : sectionIndexOf i ss.length
        = ((min (i / 5) (ss.length - 1) : Nat) : Int) := by
      simp only [sectionIndexOf]; omega
    have hlt : min (i / 5) (ss.length - 1) < ss.length := by omega
    rw [hcast]
    simp only [pySectionAt]
    rw [if_neg (by omega)]
    rw [if_neg (by omega)]
    have htn : ((min (i / 5) (ss.length - 1) : Nat) : Int).toNat
        = min (i / 5) (ss.length - 1) := Int.toNat_natCast _
    rw [htn]
    cases hh : ss.get? (min (i / 5) (ss.length - 1)) with
    | none =>
      exact absurd (List.get?_eq_none.mp hh) (by omega)
    | some v =>
      rw [List.getD_eq_getElem?_getD, ← List.get?_eq_getElem?, hh]
      rfl
  · intro i
    refine ⟨fun h => ?_, fun h1 h2 => ?_, fun h1 h2 => ?_⟩ <;> omega
  · intro i n hn h
    omega

/-- Witness for C1: slide 7 of a 3-section outline uses section index 1;
slide 11 of the concrete 3-section outline gets the third section; slide
60 clamps to the last of 3 sections. -/
theorem C1_section_distribution_witness :
    sectionIndexOf 7 3 = ((min (7 / 5) (3 - 1) : Nat) : Int)
  ∧ pySectionAt ["a", "b", "c"] (sectionIndexOf 11 3) = .ok "c"
  ∧ min (60 / 5) (3 - 1) = 3 - 1 := by
  refine ⟨C1_section_distribution.1 7 3 (by decide), ?_, C1_section_distribution.2.2.2 60 3 (by decide) (by decide)⟩
  have h := C1_section_distribution.2.1 ["a", "b", "c"] (by simp) 11
  simpa using h

/-! ## C7: empty section list faults, single section is safe -/

/-- C7: the outline's sections list is never length-validated: with an
empty sections list the very first slide's lookup evaluates index -1 on an
empty list and raises IndexError, which generate_content_from_outline
catches and reports as its failure record (and nothing is saved); a
single-section outline is safe for every slide position thanks to the min
clamp. -/
theorem C7_empty_sections_fault :
    (∀ i : Nat, pySectionAt [] (sectionIndexOf i 0) = .error "list index out of range")
  ∧ (∀ (env : GenEnv) (output_path : String) (prs : Pres),
        env.newClient = .ok () →
        env.loadOutline = .ok ⟨[]⟩ →
        env.loadTemplate = .ok prs →
        prs.slides ≠ [] →
        generate_content_from_outline env output_path
          = ({ success := false, error := some "list index out of range" }, false))
  ∧ (∀ (s : String) (i : Nat), pySectionAt [s] (sectionIndexOf i 1) = .ok s) := by
  have hfault : ∀ i : Nat,
      pySectionAt [] (sectionIndexOf i 0) = .error "list index out of range" := by
    intro i
    have h0 : sectionIndexOf i 0 = -1 := by
      simp only [sectionIndexOf]; omega
    rw [h0]
    rfl
  refine ⟨hfault, ?_, ?_⟩
  · intro env output_path prs h1 h2 h3 h4
    simp only [generate_content_from_outline, h1, h2, h3]
    cases hs : prs.slides with
    | nil => exact absurd hs h4
    | cons sl rest =>
      have hps : processSlides env.complete [] 0 (sl :: rest)
          = .error "list index out of range" := by
        simp only [processSlides, List.length_nil]
        rw [hfault 0]
      rw [hps]
  · intro s i
    have h0 : sectionIndexOf i 1 = 0 := by
      simp only [sectionIndexOf]; omega
    rw [h0]
    rfl

/-- Witness for C7: a concrete environment with an empty-section outline
and a one-slide template yields the failure record with no save, and the
lookup with one section is safe at slide 12. -/
theorem C7_empty_sections_fault_witness :
    generate_content_from_outline
      { newClient := .ok ()
        loadOutline := .ok ⟨[]⟩
        loadTemplate := .ok samplePres
        complete := fun _ => .ok "text"
        save := fun _ => .ok () } "out.pptx"
      = ({ success := false, error := some "list index out of range" }, false)
  ∧ pySectionAt ["only"] (sectionIndexOf 12 1) = .ok "only" := by
  constructor
  · exact C7_empty_sections_fault.2.1 _ "out.pptx" samplePres rfl rfl rfl (by simp [samplePres])
  · exact C7_empty_sections_fault.2.2 "only" 12

/-! ## C6: any fault aborts the generation wholesale -/

/-- C6: in generate_content_from_outline, a fault at any step — client
construction, outline parsing, template opening, the slide/section/
completion loop, or the save — aborts the whole operation and produces a
failure record carrying exactly the caught message, with no output file
written (the save flag is false whenever any step failed); the success
record and the save happen only when every step succeeded. -/
theorem C6_fault_aborts (env : GenEnv) (output_path : String) (e : String) :
    (env.newClient = .error e →
       generate_content_from_outline env output_path
         = ({ success := false, error := some e }, false))
  ∧ (env.newClient = .ok () → env.loadOutline = .error e →
       generate_content_from_outline env output_path
         = ({ success := false, error := some e }, false))
  ∧ (∀ o : Outline, env.newClient = .ok () → env.loadOutline = .ok o →
       env.loadTemplate = .error e →
       generate_content_from_outline env output_path
         = ({ success := false, error := some e }, false))
  ∧ (∀ (o : Outline) (prs : Pres), env.newClient = .ok () →
       env.loadOutline = .ok o → env.loadTemplate = .ok prs →
       processSlides env.complete o.sections 0 prs.slides = .error e →
       generate_content_from_outline env output_path
         = ({ success := false, error := some e }, false))
  ∧ (∀ (o : Outline) (prs : Pres) (slides2 : List Slide),
       env.newClient = .ok () → env.loadOutline = .ok o →
       env.loadTemplate = .ok prs →
       processSlides env.complete o.sections 0 prs.slides = .ok slides2 →
       env.save { prs with slides := slides2 } = .error e →
       generate_content_from_outline env output_path
         = ({ success := false, error := some e }, false))
  ∧ (∀ (o : Outline) (prs : Pres) (slides2 : List Slide),
       env.newClient = .ok () → env.loadOutline = .ok o →
       env.loadTemplate = .ok prs →
       processSlides env.complete o.sections 0 prs.slides = .ok slides2 →
       env.save { prs with slides := slides2 } = .ok () →
       generate_content_from_outline env output_path
         = ({ success := true, message := some "PPT内容生成成功",
              output_path := some output_path }, true)) := by
  refine ⟨?_, ?_, ?_, ?_, ?_, ?_⟩
  · intro h1
    simp only [generate_content_from_outline, h1]
  · intro h1 h2
    simp only [generate_content_from_outline, h1, h2]
  · intro o h1 h2 h3
    simp only [generate_content_from_outline, h1, h2, h3]
  · intro o prs h1 h2 h3 h4
    simp only [generate_content_from_outline, h1, h2, h3, h4]
  · intro o prs slides2 h1 h2 h3 h4 h5
    simp only [generate_content_from_outline, h1, h2, h3, h4, h5]
  · intro o prs slides2 h1 h2 h3 h4 h5
    simp only [generate_content_from_outline, h1, h2, h3, h4, h5]

/-- Witness for C6: a concrete environment whose template open fails
yields the failure record with that exact message and no save. -/
theorem C6_fault_aborts_witness :
    generate_content_from_outline
      { newClient := .ok ()
        loadOutline := .ok ⟨["sec"]⟩
        loadTemplate := .error "Package not found"
        complete := fun _ => .ok "txt"
        save := fun _ => .ok () } "out.pptx"
      = ({ success := false, error := some "Package not found" }, false) :=
  (C6_fault_aborts _ "out.pptx" "Package not found").2.2.1 ⟨["sec"]⟩ rfl rfl rfl

/-! ## C4: the slide-index guard of every slide-taking tool -/

/-- Shared reduction: when a tool body leaves the document untouched and
produces result `r` with trace `[]`, the full tool call returns `r` with
the registry unchanged. -/
theorem runTool_guard {τ : Type} (presentations : Registry)
    (currentId presentation_id : Option String) (pid : String) (p : Pres)
    (core : Pres → ToolResult × Pres × List τ) (r : ToolResult) (tr : List τ)
    (hres : resolveId presentation_id currentId = some pid)
    (hfound : lookupPres presentations pid = some p)
    (hcore : core p = (r, p, tr)) :
    runTool presentations currentId presentation_id core
      = (r, presentations, tr) := by
  rw [runTool_loaded presentations currentId presentation_id pid p core hres hfound, hcore]
  simp [setPres_of_lookup presentations pid p hfound]

/-- C4: for every slide_index outside [0, len(slides)-1], each of the five
slide-taking tools — get_slide_info, populate_placeholder,
add_bullet_points, manage_text, manage_image — returns the error naming
the valid slide range, and the registry (hence the targeted document) is
left unmodified; the message indeed mentions the range. -/
theorem C4_slide_index_guard
    (presentations : Registry) (currentId presentation_id : Option String)
    (pid : String) (p : Pres) (slide_index : Int)
    (hres : resolveId presentation_id currentId = some pid)
    (hfound : lookupPres presentations pid = some p)
    (hbad : slide_index < 0 ∨ (p.slides.length : Int) ≤ slide_index) :
    (∀ uGetInfo,
       get_slide_info presentations currentId uGetInfo slide_index presentation_id
         = (.err (invalidSlideMsg slide_index p.slides.length), presentations, []))
  ∧ (∀ uPopulate placeholder_idx text,
       populate_placeholder presentations currentId uPopulate slide_index
           placeholder_idx text presentation_id
         = (.err (invalidSlideMsg slide_index p.slides.length), presentations, []))
  ∧ (∀ uAddBullets placeholder_idx bullet_points,
       add_bullet_points presentations currentId uAddBullets slide_index
           placeholder_idx bullet_points presentation_id
         = (.err (invalidSlideMsg slide_index p.slides.length), presentations, []))
  ∧ (∀ isPos vrgb uAT uFA uVF uFX operation left top width height text
        shape_index text_runs font_size font_name bold italic underline
        color bg_color alignment vertical_alignment auto_fit validation_only
        min_font_size max_font_size,
       manage_text presentations currentId isPos vrgb uAT uFA uVF uFX
           slide_index operation left top width height text shape_index
           text_runs font_size font_name bold italic underline color bg_color
           alignment vertical_alignment auto_fit validation_only
           min_font_size max_font_size presentation_id
         = (.err (invalidSlideMsg slide_index p.slides.length), presentations, []))
  ∧ (∀ osExists b64decode tempPath uAddImage uProfEnhance uPillowEnhance
        operation image_source source_type left top width height
        enhancement_style brightness contrast saturation sharpness
        blur_radius filter_type output_path,
       manage_image presentations currentId osExists b64decode tempPath
           uAddImage uProfEnhance uPillowEnhance slide_index operation
           image_source source_type left top width height enhancement_style
           brightness contrast saturation sharpness blur_radius filter_type
           output_path presentation_id
         = (.err (invalidSlideMsg slide_index p.slides.length), presentations, []))
  ∧ mentionsSlideRange (invalidSlideMsg slide_index p.slides.length)
      p.slides.length := by
  refine ⟨?_, ?_, ?_, ?_, ?_, ?_⟩
  · intro uGetInfo
    exact runTool_guard presentations currentId presentation_id pid p _ _ _
      hres hfound (by simp only [get_slide_info_core]; rw [if_pos hbad])
  · intro uPopulate placeholder_idx text
    exact runTool_guard presentations currentId presentation_id pid p _ _ _
      hres hfound (by simp only [populate_placeholder_core]; rw [if_pos hbad])
  · intro uAddBullets placeholder_idx bullet_points
    exact runTool_guard presentations currentId presentation_id pid p _ _ _
      hres hfound (by simp only [add_bullet_points_core]; rw [if_pos hbad])
  · intro isPos vrgb uAT uFA uVF uFX operation left top width height text
      shape_index text_runs font_size font_name bold italic underline
      color bg_color alignment vertical_alignment auto_fit validation_only
      min_font_size max_font_size
    exact runTool_guard presentations currentId presentation_id pid p _ _ _
      hres hfound (by simp only [manage_text_core]; rw [if_pos hbad])
  · intro osExists b64decode tempPath uAddImage uProfEnhance uPillowEnhance
      operation image_source source_type left top width height
      enhancement_style brightness contrast saturation sharpness
      blur_radius filter_type output_path
    exact runTool_guard presentations currentId presentation_id pid p _ _ _
      hres hfound (by simp only [manage_image_core]; rw [if_pos hbad])
  · exact ⟨"Invalid slide index: " ++ toString slide_index ++ ". ", rfl⟩

/-- Witness for C4: slide index 5 of the one-slide sample document is
rejected by get_slide_info and manage_image with the range-naming error
and an unchanged registry. -/
theorem C4_slide_index_guard_witness :
    get_slide_info sampleRegistry (some "deck") (fun _ _ => .ok "info") 5 none
      = (.err (invalidSlideMsg 5 1), sampleRegistry, [])
  ∧ manage_image sampleRegistry (some "deck") (fun _ => true)
      (fun _ => .ok "bytes") "/tmp/t.png" (fun q _ _ _ _ _ => .ok q)
      (fun s _ => .ok s) (fun s _ _ _ _ _ _ _ => .ok s)
      5 "add" "img.png" "file" 1 1 none none none 1 1 1 1 0 none none none
      = (.err (invalidSlideMsg 5 1), sampleRegistry, [])
  ∧ mentionsSlideRange (invalidSlideMsg 5 1) 1 := by
  have h := C4_slide_index_guard sampleRegistry (some "deck") none "deck"
    samplePres 5 rfl rfl (by right; decide)
  exact ⟨h.1 _, h.2.2.2.2.1 _ _ _ _ _ _ "add" "img.png" "file" 1 1 none none
    none 1 1 1 1 0 none none, h.2.2.2.2.2⟩

/-! ## C3: placeholder indices are NOT bounds-checked -/

/-- C3 counterexample: add_bullet_points with placeholder index 5 on the
sample slide (whose placeholders have idx 0 and 1, so the valid range ends
at 1) performs no bounds check of its own; the raw placeholder access
raises, and the reported error does not name the valid range — refuting
the claim that every tool bounds-checks every index argument with a
range-naming error, in particular placeholder_idx. -/
theorem C3_counterexample :
    (add_bullet_points sampleRegistry (some "deck") (fun ph _ => .ok ph)
        0 5 ["pt"] none).1
      = .err "Failed to add bullet points: no placeholder on this slide with idx == 5"
  ∧ ¬ namesRange0to
      "Failed to add bullet points: no placeholder on this slide with idx == 5" 1 := by
  constructor
  · rfl
  · simp only [namesRange0to]
    decide

/-- C3 amended: slide indices (every tool) and shape indices (manage_text)
are bounds-checked before any mutation with errors naming the valid
range, but placeholder_idx is not: populate_placeholder forwards it
unchecked to the delegate and wraps a delegate failure verbatim, and
add_bullet_points lets the raw placeholder access raise KeyError; in both
placeholder cases the reported message carries no range information
beyond what the exception text contains, and the document is unchanged. -/
theorem C3_placeholder_idx_unchecked
    (presentations : Registry) (currentId presentation_id : Option String)
    (pid : String) (p : Pres)
    (hres : resolveId presentation_id currentId = some pid)
    (hfound : lookupPres presentations pid = some p) :
    (∀ isPos vrgb uAT uFA uVF uFX slide_index left top width height text
        shape_index alignment vertical_alignment auto_fit validation_only
        min_font_size max_font_size,
       ¬(slide_index < 0 ∨ (p.slides.length : Int) ≤ slide_index) →
       shapeIdxBad shape_index
           (p.slides.getD slide_index.toNat default).shapes.length = true →
       manage_text presentations currentId isPos vrgb uAT uFA uVF uFX
           slide_index "format" left top width height text shape_index none
           none none none none none none none alignment vertical_alignment
           auto_fit validation_only min_font_size max_font_size presentation_id
         = (.err (invalidShapeMsg "formatting" shape_index
              (p.slides.getD slide_index.toNat default).shapes.length),
            presentations, [])
       ∧ mentionsShapeRange
           (invalidShapeMsg "formatting" shape_index
             (p.slides.getD slide_index.toNat default).shapes.length)
           (p.slides.getD slide_index.toNat default).shapes.length)
  ∧ (∀ uPopulate slide_index placeholder_idx text e,
       ¬(slide_index < 0 ∨ (p.slides.length : Int) ≤ slide_index) →
       uPopulate (p.slides.getD slide_index.toNat default) placeholder_idx text
         = .error e →
       populate_placeholder presentations currentId uPopulate slide_index
           placeholder_idx text presentation_id
         = (.err (failedMsg "populate placeholder" e), presentations,
            ["ppt_utils.populate_placeholder"]))
  ∧ (∀ uAddBullets slide_index placeholder_idx bullet_points,
       ¬(slide_index < 0 ∨ (p.slides.length : Int) ≤ slide_index) →
       (p.slides.getD slide_index.toNat default).placeholders.find?
           (fun q => ((q.idx : Int)) == placeholder_idx) = none →
       add_bullet_points presentations currentId uAddBullets slide_index
           placeholder_idx bullet_points presentation_id
         = (.err (failedMsg "add bullet points"
              ("no placeholder on this slide with idx == " ++ toString placeholder_idx)),
            presentations, [])) := by
  refine ⟨?_, ?_, ?_⟩
  · intro isPos vrgb uAT uFA uVF uFX slide_index left top width height text
      shape_index alignment vertical_alignment auto_fit validation_only
      min_font_size max_font_size hgood hshape
    constructor
    · refine runTool_guard presentations currentId presentation_id pid p _ _ _
        hres hfound ?_
      have hshape2 : shapeIdxBad shape_index
          ((p.slides[slide_index.toNat]?).getD default).shapes.length = true := by
        simpa using hshape
      simp only [manage_text_core, mtValidations]
      rw [if_neg hgood]
      simp [hshape2]
    · exact ⟨"Invalid shape index for " ++ "formatting" ++ ": " ++
        optIdxStr shape_index ++ ". ", rfl⟩
  · intro uPopulate slide_index placeholder_idx text e hgood hdel
    refine runTool_guard presentations currentId presentation_id pid p _ _ _
      hres hfound ?_
    simp only [populate_placeholder_core]
    rw [if_neg hgood, hdel]
  · intro uAddBullets slide_index placeholder_idx bullet_points hgood hmiss
    refine runTool_guard presentations currentId presentation_id pid p _ _ _
      hres hfound ?_
    simp only [add_bullet_points_core, getPlaceholder]
    rw [if_neg hgood, hmiss]

/-- Witness for the amended C3 on the sample document: a bad shape index
in manage_text format gets a range-naming error; an out-of-range
placeholder index in populate_placeholder (delegate raising KeyError) and
in add_bullet_points is reported through the catch-all instead. -/
theorem C3_placeholder_idx_unchecked_witness :
    manage_text sampleRegistry (some "deck") is_positive is_valid_rgb
      (fun q _ _ _ _ _ _ _ => .ok q) (fun q _ _ => .ok q)
      (fun _ _ _ => .ok ⟨false, ""⟩) (fun q _ _ => .ok ("", q))
      0 "format" 1 1 4 2 "" (some 3) none none none none none none none none
      none none true false 8 72 none
      = (.err (invalidShapeMsg "formatting" (some 3) 1), sampleRegistry, [])
  ∧ populate_placeholder sampleRegistry (some "deck")
      (fun _ _ _ => .error "no placeholder on this slide with idx == 9")
      0 9 "hello" none
      = (.err "Failed to populate placeholder: no placeholder on this slide with idx == 9",
         sampleRegistry, ["ppt_utils.populate_placeholder"])
  ∧ add_bullet_points sampleRegistry (some "deck") (fun ph _ => .ok ph)
      0 9 ["pt"] none
      = (.err "Failed to add bullet points: no placeholder on this slide with idx == 9",
         sampleRegistry, []) := by
  have h := C3_placeholder_idx_unchecked sampleRegistry (some "deck") none
    "deck" samplePres rfl rfl
  refine ⟨(h.1 is_positive is_valid_rgb _ _ _ _ 0 1 1 4 2 "" (some 3) none none
    true false 8 72 (by decide) (by decide)).1, ?_, ?_⟩
  · exact h.2.1 _ 0 9 "hello" "no placeholder on this slide with idx == 9"
      (by decide) rfl
  · exact h.2.2 _ 0 9 ["pt"] (by decide) (by decide)

/-! ## C2: paragraph count after format_runs -/

/-- C2: evaluating manage_text format_runs at the failing input — two run
dictionaries, one with text Hello and one lacking a text key — on the
sample shape.  The run without text is skipped and exactly one formatted
run is reported, but the rebuilt frame holds TWO paragraphs: the empty one
left behind by TextFrame.clear plus one appended per valid run, because
the `if not text_frame.paragraphs` guard can never select the existing
first paragraph.  The claim (shape ends with exactly N paragraphs for N
valid runs) demands one paragraph here. -/
theorem C2_format_runs_failing_input :
    (manage_text sampleRegistry (some "deck") is_positive is_valid_rgb
        (fun q _ _ _ _ _ _ _ => .ok q) (fun q _ _ => .ok q)
        (fun _ _ _ => .ok ⟨false, ""⟩) (fun q _ _ => .ok ("", q))
        0 "format_runs" 1 1 4 2 "" (some 0)
        (some [{ text := some "Hello" }, { bold := some true }])
        none none none none none none none none none true false 8 72 none).1
      = .formatRunsOk "Applied formatting to 1 text runs on shape 0" 0 0
          [⟨"Hello", []⟩]
  ∧ (((lookupPres (manage_text sampleRegistry (some "deck") is_positive is_valid_rgb
        (fun q _ _ _ _ _ _ _ => .ok q) (fun q _ _ => .ok q)
        (fun _ _ _ => .ok ⟨false, ""⟩) (fun q _ _ => .ok ("", q))
        0 "format_runs" 1 1 4 2 "" (some 0)
        (some [{ text := some "Hello" }, { bold := some true }])
        none none none none none none none none none true false 8 72 none).2.1
        "deck").getD default).slides.getD 0 default).shapes.getD 0 default
      = { sampleShape with frame := [{ runs := [] }, { runs := [{ text := "Hello" }] }] }
  ∧ ([({ runs := [] } : Paragraph), { runs := [{ text := "Hello" }] }].length = 2
      ∧ (([({ runs := [] } : Paragraph), { runs := [{ text := "Hello" }] }].map
            (fun pg => pg.runs.length)).sum = 1)) := by
  refine ⟨?_, ?_, by decide⟩
  · rfl
  · rfl

/-! ## C10: invalid run color is skipped yet reported as applied -/

/-- C10: in format_runs, a run dictionary whose color fails the RGB
validation gets no font color applied to the rebuilt run, yet the color
entry still appears in the formatting_applied dictionary reported for
that run in formatted_runs. -/
theorem C10_invalid_color_reported
    (vrgb : List Int → Bool) (rd : RunData) (c : List Int) (t : String)
    (hc : rd.color = some c) (hv : vrgb c = false) (ht : rd.text = some t) :
    (buildRun vrgb rd t).font.color = none
  ∧ ("color", RunVal.rgb c) ∈ rd.appliedFormatting
  ∧ formatRunsBody vrgb [rd]
      = .ok ([{ runs := [] }, { runs := [buildRun vrgb rd t] }],
             [⟨t, rd.appliedFormatting⟩]) := by
  refine ⟨?_, ?_, ?_⟩
  · simp [buildRun, hc, hv]
  · simp [RunData.appliedFormatting, hc]
  · simp [formatRunsBody, formatRunsStep, ht]

/-- Witness for C10: the run dictionary with text x and the invalid color
[300, 0, 0] (rejected by the spec-modelled is_valid_rgb) yields a run with
no font color while formatting_applied still lists the color. -/
theorem C10_invalid_color_reported_witness :
    (buildRun is_valid_rgb { text := some "x", color := some [300, 0, 0] } "x").font.color = none
  ∧ ("color", RunVal.rgb [300, 0, 0])
      ∈ ({ text := some "x", color := some [300, 0, 0] } : RunData).appliedFormatting
  ∧ formatRunsBody is_valid_rgb [{ text := some "x", color := some [300, 0, 0] }]
      = .ok ([{ runs := [] },
              { runs := [buildRun is_valid_rgb
                  { text := some "x", color := some [300, 0, 0] } "x"] }],
             [⟨"x", ({ text := some "x", color := some [300, 0, 0] } : RunData).appliedFormatting⟩]) :=
  C10_invalid_color_reported is_valid_rgb
    { text := some "x", color := some [300, 0, 0] } [300, 0, 0] "x"
    rfl (by decide) rfl

/-! ## C5: delegate exceptions become uniform error dictionaries -/

/-- C5: an exception raised by any delegated utility operation is caught
inside the tool and converted into the error dictionary built by
failedMsg — the result value "Failed to <verb>: <message>" — and, the
tools being total functions into ToolResult, no exception propagates to
the caller.  Every delegated call site of the module is covered: the four
delegates of add_slide (slide creation, title, both background styles),
get_slide_info, populate_placeholder, add_bullet_points, the add, format
and validate operations of manage_text (including the auto-fix delegate),
and the add (base64 and file) and enhance operations of manage_image
(including the nested base64 handler with its own verb). -/
theorem C5_exception_conversion
    (presentations : Registry) (currentId presentation_id : Option String)
    (pid : String) (p : Pres) (e : String)
    (hres : resolveId presentation_id currentId = some pid)
    (hfound : lookupPres presentations pid = some p) :
    (∀ uAddSlide uSetTitle uGradient uProfGradient layout_index title
        background_type background_colors gradient_direction color_scheme,
       ¬(layout_index < 0 ∨ (p.layouts.length : Int) ≤ layout_index) →
       uAddSlide p layout_index = .error e →
       (add_slide presentations currentId uAddSlide uSetTitle uGradient
           uProfGradient layout_index title background_type background_colors
           gradient_direction color_scheme presentation_id).1
         = .err (failedMsg "add slide" e))
  ∧ (∀ uAddSlide uSetTitle uGradient uProfGradient layout_index title
        background_type background_colors gradient_direction color_scheme
        (p1 : Pres) (layout : Layout),
       ¬(layout_index < 0 ∨ (p.layouts.length : Int) ≤ layout_index) →
       uAddSlide p layout_index = .ok (p1, layout) →
       pyTruthyStr title = true →
       uSetTitle p1 (title.getD "") = .error e →
       (add_slide presentations currentId uAddSlide uSetTitle uGradient
           uProfGradient layout_index title background_type background_colors
           gradient_direction color_scheme presentation_id).1
         = .err (failedMsg "add slide" e))
  ∧ (∀ uAddSlide uSetTitle uGradient uProfGradient layout_index title
        background_colors gradient_direction color_scheme
        (p1 p2 : Pres) (layout : Layout) (titleTrace : List String),
       ¬(layout_index < 0 ∨ (p.layouts.length : Int) ≤ layout_index) →
       uAddSlide p layout_index = .ok (p1, layout) →
       (if pyTruthyStr title then
          ((uSetTitle p1 (title.getD "")).map
            (fun q => (q, ["ppt_utils.set_title"])))
        else .ok (p1, ([] : List String))) = .ok (p2, titleTrace) →
       pyTruthyList background_colors = true →
       2 ≤ (background_colors.getD []).length →
       uGradient p2 ((background_colors.getD []).getD 0 [])
           ((background_colors.getD []).getD 1 []) gradient_direction
         = .error e →
       (add_slide presentations currentId uAddSlide uSetTitle uGradient
           uProfGradient layout_index title (some "gradient")
           background_colors gradient_direction color_scheme
           presentation_id).1
         = .err (failedMsg "add slide" e))
  ∧ (∀ uAddSlide uSetTitle uGradient uProfGradient layout_index title
        background_colors gradient_direction color_scheme
        (p1 p2 : Pres) (layout : Layout) (titleTrace : List String),
       ¬(layout_index < 0 ∨ (p.layouts.length : Int) ≤ layout_index) →
       uAddSlide p layout_index = .ok (p1, layout) →
       (if pyTruthyStr title then
          ((uSetTitle p1 (title.getD "")).map
            (fun q => (q, ["ppt_utils.set_title"])))
        else .ok (p1, ([] : List String))) = .ok (p2, titleTrace) →
       uProfGradient p2 color_scheme "subtle" gradient_direction = .error e →
       (add_slide presentations currentId uAddSlide uSetTitle uGradient
           uProfGradient layout_index title (some "professional_gradient")
           background_colors gradient_direction color_scheme
           presentation_id).1
         = .err (failedMsg "add slide" e))
  ∧ (∀ uGetInfo slide_index,
       ¬(slide_index < 0 ∨ (p.slides.length : Int) ≤ slide_index) →
       uGetInfo (p.slides.getD slide_index.toNat default) slide_index = .error e →
       (get_slide_info presentations currentId uGetInfo slide_index
           presentation_id).1 = .err (failedMsg "get slide info" e))
  ∧ (∀ uPopulate slide_index placeholder_idx text,
       ¬(slide_index < 0 ∨ (p.slides.length : Int) ≤ slide_index) →
       uPopulate (p.slides.getD slide_index.toNat default) placeholder_idx text
         = .error e →
       (populate_placeholder presentations currentId uPopulate slide_index
           placeholder_idx text presentation_id).1
         = .err (failedMsg "populate placeholder" e))
  ∧ (∀ uAddBullets slide_index placeholder_idx bullet_points ph,
       ¬(slide_index < 0 ∨ (p.slides.length : Int) ≤ slide_index) →
       getPlaceholder (p.slides.getD slide_index.toNat default) placeholder_idx
         = .ok ph →
       uAddBullets ph bullet_points = .error e →
       (add_bullet_points presentations currentId uAddBullets slide_index
           placeholder_idx bullet_points presentation_id).1
         = .err (failedMsg "add bullet points" e))
  ∧ (∀ isPos vrgb uAT uFA uVF uFX slide_index left top width height text
        shape_index text_runs alignment vertical_alignment auto_fit
        validation_only min_font_size max_font_size,
       ¬(slide_index < 0 ∨ (p.slides.length : Int) ≤ slide_index) →
       uAT p left top width height text
           ⟨none, none, none, none, none, none, none, alignment,
            vertical_alignment⟩ auto_fit = .error e →
       (manage_text presentations currentId isPos vrgb uAT uFA uVF uFX
           slide_index "add" left top width height text shape_index text_runs
           none none none none none none none alignment vertical_alignment
           auto_fit validation_only min_font_size max_font_size
           presentation_id).1
         = .err (failedMsg ("add" ++ " text") e))
  ∧ (∀ isPos vrgb uAT uFA uVF uFX slide_index left top width height text
        shape_index text_runs alignment vertical_alignment auto_fit
        validation_only min_font_size max_font_size,
       ¬(slide_index < 0 ∨ (p.slides.length : Int) ≤ slide_index) →
       shapeIdxBad shape_index
           (p.slides.getD slide_index.toNat default).shapes.length = false →
       uFA p (shape_index.getD 0).toNat
           ⟨none, none, none, none, none, none, none, alignment,
            vertical_alignment⟩ = .error e →
       (manage_text presentations currentId isPos vrgb uAT uFA uVF uFX
           slide_index "format" left top width height text shape_index
           text_runs none none none none none none none alignment
           vertical_alignment auto_fit validation_only min_font_size
           max_font_size presentation_id).1
         = .err (failedMsg ("format" ++ " text") e))
  ∧ (∀ isPos vrgb uAT uFA uVF uFX slide_index left top width height text
        shape_index text_runs alignment vertical_alignment auto_fit
        validation_only min_font_size max_font_size,
       ¬(slide_index < 0 ∨ (p.slides.length : Int) ≤ slide_index) →
       shapeIdxBad shape_index
           (p.slides.getD slide_index.toNat default).shapes.length = false →
       uVF ((p.slides.getD slide_index.toNat default).shapes.getD
              (shape_index.getD 0).toNat default)
           (pyOrStr text) 12 = .error e →
       (manage_text presentations currentId isPos vrgb uAT uFA uVF uFX
           slide_index "validate" left top width height text shape_index
           text_runs none none none none none none none alignment
           vertical_alignment auto_fit validation_only min_font_size
           max_font_size presentation_id).1
         = .err (failedMsg ("validate" ++ " text") e))
  ∧ (∀ isPos vrgb uAT uFA uVF uFX slide_index left top width height text
        shape_index text_runs alignment vertical_alignment auto_fit
        min_font_size max_font_size (vres : VRes),
       ¬(slide_index < 0 ∨ (p.slides.length : Int) ≤ slide_index) →
       shapeIdxBad shape_index
           (p.slides.getD slide_index.toNat default).shapes.length = false →
       uVF ((p.slides.getD slide_index.toNat default).shapes.getD
              (shape_index.getD 0).toNat default)
           (pyOrStr text) 12 = .ok vres →
       vres.needs_optimization = true →
       uFX p min_font_size max_font_size = .error e →
       (manage_text presentations currentId isPos vrgb uAT uFA uVF uFX
           slide_index "validate" left top width height text shape_index
           text_runs none none none none none none none alignment
           vertical_alignment auto_fit false min_font_size max_font_size
           presentation_id).1
         = .err (failedMsg ("validate" ++ " text") e))
  ∧ (∀ osExists b64decode tempPath uAddImage uProfEnhance uPillowEnhance
        slide_index image_source left top width height enhancement_style
        brightness contrast saturation sharpness blur_radius filter_type
        output_path,
       ¬(slide_index < 0 ∨ (p.slides.length : Int) ≤ slide_index) →
       b64decode image_source = .error e →
       (manage_image presentations currentId osExists b64decode tempPath
           uAddImage uProfEnhance uPillowEnhance slide_index "add"
           image_source "base64" left top width height enhancement_style
           brightness contrast saturation sharpness blur_radius filter_type
           output_path presentation_id).1
         = .err (failedMsg "process base64 image" e))
  ∧ (∀ osExists b64decode tempPath uAddImage uProfEnhance uPillowEnhance
        slide_index image_source left top width height enhancement_style
        brightness contrast saturation sharpness blur_radius filter_type
        output_path (bytes : String),
       ¬(slide_index < 0 ∨ (p.slides.length : Int) ≤ slide_index) →
       b64decode image_source = .ok bytes →
       uAddImage p tempPath left top width height = .error e →
       (manage_image presentations currentId osExists b64decode tempPath
           uAddImage uProfEnhance uPillowEnhance slide_index "add"
           image_source "base64" left top width height enhancement_style
           brightness contrast saturation sharpness blur_radius filter_type
           output_path presentation_id).1
         = .err (failedMsg "process base64 image" e))
  ∧ (∀ osExists b64decode tempPath uAddImage uProfEnhance uPillowEnhance
        slide_index image_source source_type left top width height
        enhancement_style brightness contrast saturation sharpness
        blur_radius filter_type output_path,
       ¬(slide_index < 0 ∨ (p.slides.length : Int) ≤ slide_index) →
       (source_type == "base64") = false →
       osExists image_source = true →
       uAddImage p image_source left top width height = .error e →
       (manage_image presentations currentId osExists b64decode tempPath
           uAddImage uProfEnhance uPillowEnhance slide_index "add"
           image_source source_type left top width height enhancement_style
           brightness contrast saturation sharpness blur_radius filter_type
           output_path presentation_id).1
         = .err (failedMsg ("add" ++ " image") e))
  ∧ (∀ osExists b64decode tempPath uAddImage uProfEnhance uPillowEnhance
        slide_index image_source source_type left top width height
        enhancement_style brightness contrast saturation sharpness
        blur_radius filter_type output_path,
       ¬(slide_index < 0 ∨ (p.slides.length : Int) ≤ slide_index) →
       (source_type == "base64") = false →
       osExists image_source = true →
       (if enhancement_style == some "presentation" then
          uProfEnhance image_source output_path
        else
          uPillowEnhance image_source brightness contrast saturation
            sharpness blur_radius filter_type output_path) = .error e →
       (manage_image presentations currentId osExists b64decode tempPath
           uAddImage uProfEnhance uPillowEnhance slide_index "enhance"
           image_source source_type left top width height enhancement_style
           brightness contrast saturation sharpness blur_radius filter_type
           output_path presentation_id).1
         = .err (failedMsg ("enhance" ++ " image") e)) := by
  refine ⟨?_, ?_, ?_, ?_, ?_, ?_, ?_, ?_, ?_, ?_, ?_, ?_, ?_, ?_, ?_⟩
  · intro uAddSlide uSetTitle uGradient uProfGradient layout_index title
      background_type background_colors gradient_direction color_scheme
      hlay hdel
    unfold add_slide
    rw [runTool_loaded presentations currentId presentation_id pid p _ hres hfound]
    simp [add_slide_core, hlay, hdel]
  · intro uAddSlide uSetTitle uGradient uProfGradient layout_index title
      background_type background_colors gradient_direction color_scheme
      p1 layout hlay hadd htt hdel
    unfold add_slide
    rw [runTool_loaded presentations currentId presentation_id pid p _ hres hfound]
    simp [add_slide_core, hlay, hadd, htt, hdel, Except.map]
  · intro uAddSlide uSetTitle uGradient uProfGradient layout_index title
      background_colors gradient_direction color_scheme
      p1 p2 layout titleTrace hlay hadd htitle htr hlen hdel
    have hlen2 : decide (2 ≤ (background_colors.getD []).length) = true :=
      decide_eq_true hlen
    unfold add_slide
    rw [runTool_loaded presentations currentId presentation_id pid p _ hres hfound]
    simp [add_slide_core, hlay, hadd, htitle, htr, hlen2]
    simp at hdel
    simp [hdel, Except.map]
  · intro uAddSlide uSetTitle uGradient uProfGradient layout_index title
      background_colors gradient_direction color_scheme
      p1 p2 layout titleTrace hlay hadd htitle hdel
    unfold add_slide
    rw [runTool_loaded presentations currentId presentation_id pid p _ hres hfound]
    simp [add_slide_core, hlay, hadd, htitle]
    simp [hdel, Except.map]
  · intro uGetInfo slide_index hgood hdel
    unfold get_slide_info
    rw [runTool_loaded presentations currentId presentation_id pid p _ hres hfound]
    simp [get_slide_info_core, hgood]
    simp at hdel
    simp [hdel]
  · intro uPopulate slide_index placeholder_idx text hgood hdel
    unfold populate_placeholder
    rw [runTool_loaded presentations currentId presentation_id pid p _ hres hfound]
    simp [populate_placeholder_core, hgood]
    simp at hdel
    simp [hdel]
  · intro uAddBullets slide_index placeholder_idx bullet_points ph hgood hph hdel
    unfold add_bullet_points
    rw [runTool_loaded presentations currentId presentation_id pid p _ hres hfound]
    simp [add_bullet_points_core, hgood]
    simp at hph
    simp [hph, hdel]
  · intro isPos vrgb uAT uFA uVF uFX slide_index left top width height text
      shape_index text_runs alignment vertical_alignment auto_fit
      validation_only min_font_size max_font_size hgood hdel
    unfold manage_text
    rw [runTool_loaded presentations currentId presentation_id pid p _ hres hfound]
    simp [manage_text_core, mtValidations, pyListOpt, hgood, hdel]
  · intro isPos vrgb uAT uFA uVF uFX slide_index left top width height text
      shape_index text_runs alignment vertical_alignment auto_fit
      validation_only min_font_size max_font_size hgood hshape hdel
    unfold manage_text
    rw [runTool_loaded presentations currentId presentation_id pid p _ hres hfound]
    have hshape2 : shapeIdxBad shape_index
        ((p.slides[slide_index.toNat]?).getD default).shapes.length = false := by
      simpa using hshape
    simp [manage_text_core, mtValidations, pyListOpt, hgood, hshape2]
    simp at hdel
    simp [hdel]
  · intro isPos vrgb uAT uFA uVF uFX slide_index left top width height text
      shape_index text_runs alignment vertical_alignment auto_fit
      validation_only min_font_size max_font_size hgood hshape hdel
    unfold manage_text
    rw [runTool_loaded presentations currentId presentation_id pid p _ hres hfound]
    have hshape2 : shapeIdxBad shape_index
        ((p.slides[slide_index.toNat]?).getD default).shapes.length = false := by
      simpa using hshape
    simp [manage_text_core, mtValidations, pyListOpt, pyOrInt, hgood, hshape2]
    simp at hdel
    simp [hdel]
  · intro isPos vrgb uAT uFA uVF uFX slide_index left top width height text
      shape_index text_runs alignment vertical_alignment auto_fit
      min_font_size max_font_size vres hgood hshape hfit hneed hdel
    unfold manage_text
    rw [runTool_loaded presentations currentId presentation_id pid p _ hres hfound]
    have hshape2 : shapeIdxBad shape_index
        ((p.slides[slide_index.toNat]?).getD default).shapes.length = false := by
      simpa using hshape
    simp [manage_text_core, mtValidations, pyListOpt, pyOrInt, hgood, hshape2]
    simp at hfit
    simp [hfit, hneed, hdel]
  · intro osExists b64decode tempPath uAddImage uProfEnhance uPillowEnhance
      slide_index image_source left top width height enhancement_style
      brightness contrast saturation sharpness blur_radius filter_type
      output_path hgood hdel
    unfold manage_image
    rw [runTool_loaded presentations currentId presentation_id pid p _ hres hfound]
    simp [manage_image_core, hgood, hdel]
  · intro osExists b64decode tempPath uAddImage uProfEnhance uPillowEnhance
      slide_index image_source left top width height enhancement_style
      brightness contrast saturation sharpness blur_radius filter_type
      output_path bytes hgood hb hdel
    unfold manage_image
    rw [runTool_loaded presentations currentId presentation_id pid p _ hres hfound]
    simp [manage_image_core, hgood, hb, hdel]
  · intro osExists b64decode tempPath uAddImage uProfEnhance uPillowEnhance
      slide_index image_source source_type left top width height
      enhancement_style brightness contrast saturation sharpness
      blur_radius filter_type output_path hgood hsrc hex hdel
    unfold manage_image
    rw [runTool_loaded presentations currentId presentation_id pid p _ hres hfound]
    simp [manage_image_core, hgood, hsrc, hex, hdel]
  · intro osExists b64decode tempPath uAddImage uProfEnhance uPillowEnhance
      slide_index image_source source_type left top width height
      enhancement_style brightness contrast saturation sharpness
      blur_radius filter_type output_path hgood hsrc hex hdel
    unfold manage_image
    rw [runTool_loaded presentations currentId presentation_id pid p _ hres hfound]
    simp [manage_image_core, hgood, hsrc, hex]
    simp at hdel
    simp [hdel]

/-- Witness for C5: failing delegates surface as the uniform error
dictionaries of add_slide, of the add and validate operations of
manage_text, and of the enhance operation of manage_image. -/
theorem C5_exception_conversion_witness :
    (add_slide sampleRegistry (some "deck") (fun _ _ => .error "boom")
        (fun q _ => .ok q) (fun q _ _ _ => .ok q) (fun q _ _ _ => .ok q)
        0 none none none "horizontal" "modern_blue" none).1
      = .err "Failed to add slide: boom"
  ∧ (manage_text sampleRegistry (some "deck") is_positive is_valid_rgb
        (fun _ _ _ _ _ _ _ _ => .error "text overflow")
        (fun q _ _ => .ok q) (fun _ _ _ => .ok ⟨false, ""⟩)
        (fun q _ _ => .ok ("", q))
        0 "add" 1 1 4 2 "hi" none none none none none none none none none
        none none true false 8 72 none).1
      = .err "Failed to add text: text overflow"
  ∧ (manage_text sampleRegistry (some "deck") is_positive is_valid_rgb
        (fun q _ _ _ _ _ _ _ => .ok q) (fun q _ _ => .ok q)
        (fun _ _ _ => .error "measure failed") (fun q _ _ => .ok ("", q))
        0 "validate" 1 1 4 2 "" (some 0) none none none none none none none
        none none none true false 8 72 none).1
      = .err "Failed to validate text: measure failed"
  ∧ (manage_image sampleRegistry (some "deck") (fun _ => true)
        (fun _ => .ok "b") "/tmp/t.png" (fun q _ _ _ _ _ => .ok q)
        (fun s _ => .ok s) (fun _ _ _ _ _ _ _ _ => .error "bad image")
        0 "enhance" "img.png" "file" 1 1 none none none 1 1 1 1 0 none none
        none).1
      = .err "Failed to enhance image: bad image" := by
  have h := C5_exception_conversion sampleRegistry (some "deck") none "deck"
    samplePres "boom" rfl rfl
  have h2 := C5_exception_conversion sampleRegistry (some "deck") none "deck"
    samplePres "text overflow" rfl rfl
  have h3 := C5_exception_conversion sampleRegistry (some "deck") none "deck"
    samplePres "measure failed" rfl rfl
  have h4 := C5_exception_conversion sampleRegistry (some "deck") none "deck"
    samplePres "bad image" rfl rfl
  refine ⟨?_, ?_, ?_, ?_⟩
  · exact h.1 _ _ _ _ 0 none none none "horizontal" "modern_blue"
      (by decide) rfl
  · exact h2.2.2.2.2.2.2.2.1 is_positive is_valid_rgb _ _ _ _ 0 1 1 4 2 "hi"
      none none none none true false 8 72 (by decide) rfl
  · exact h3.2.2.2.2.2.2.2.2.2.1 is_positive is_valid_rgb
      (fun q _ _ _ _ _ _ _ => .ok q) (fun q _ _ => .ok q)
      (fun _ _ _ => .error "measure failed") (fun q _ _ => .ok ("", q))
      0 1 1 4 2 "" (some 0) none none none true false 8 72
      (by decide) (by decide) rfl
  · exact h4.2.2.2.2.2.2.2.2.2.2.2.2.2.2 (fun _ => true) (fun _ => .ok "b")
      "/tmp/t.png" (fun q _ _ _ _ _ => .ok q) (fun s _ => .ok s)
      (fun _ _ _ _ _ _ _ _ => .error "bad image") 0 "img.png" "file" 1 1
      none none none 1 1 1 1 0 none none (by decide) (by decide) rfl rfl

/-! ## C8: gradient background with fewer than two colors -/

/-- C8: add_slide called with background_type gradient but fewer than two
color entries (absent, empty, or a one-entry list) applies no background
at all — the result is the same for every choice of the two background
delegates, whose names never enter the call trace — and the call still
succeeds with the new slide index. -/
theorem C8_gradient_fallthrough
    (presentations : Registry) (currentId presentation_id : Option String)
    (pid : String) (p : Pres)
    (uAddSlide : Pres → Int → Except String (Pres × Layout))
    (uSetTitle : Pres → String → Except String Pres)
    (layout_index : Int) (title : Option String)
    (background_colors : Option (List (List Int)))
    (gradient_direction color_scheme : String)
    (p1 p2 : Pres) (layout : Layout) (titleTrace : List String)
    (hres : resolveId presentation_id currentId = some pid)
    (hfound : lookupPres presentations pid = some p)
    (hlay : ¬(layout_index < 0 ∨ (p.layouts.length : Int) ≤ layout_index))
    (hcolors : (background_colors.getD []).length < 2)
    (hadd : uAddSlide p layout_index = .ok (p1, layout))
    (htitle : (if pyTruthyStr title then
                ((uSetTitle p1 (title.getD "")).map
                  (fun q => (q, ["ppt_utils.set_title"])))
              else .ok (p1, ([] : List String))) = .ok (p2, titleTrace)) :
    ∀ uGradient uProfGradient,
      add_slide presentations currentId uAddSlide uSetTitle uGradient
          uProfGradient layout_index title (some "gradient") background_colors
          gradient_direction color_scheme presentation_id
        = (.addSlideOk ("Added slide " ++ toString ((p1.slides.length : Int) - 1)
              ++ " with layout " ++ toString layout_index)
             ((p1.slides.length : Int) - 1)
             (match layout.name with
              | some nm => nm
              | none => "Layout " ++ toString layout_index),
           setPres presentations pid p2,
           ["ppt_utils.add_slide"] ++ titleTrace)
      ∧ "ppt_utils.set_slide_gradient_background"
          ∉ ["ppt_utils.add_slide"] ++ titleTrace
      ∧ "ppt_utils.create_professional_gradient_background"
          ∉ ["ppt_utils.add_slide"] ++ titleTrace := by
  intro uGradient uProfGradient
  have hdec : decide (2 ≤ (background_colors.getD []).length) = false :=
    decide_eq_false (by omega)
  have htr : titleTrace = [] ∨ titleTrace = ["ppt_utils.set_title"] := by
    by_cases ht : pyTruthyStr title = true
    · rw [if_pos ht] at htitle
      cases hu : uSetTitle p1 (title.getD "") with
      | error er => rw [hu] at htitle; simp [Except.map] at htitle
      | ok q =>
        rw [hu] at htitle
        simp only [Except.map, Except.ok.injEq, Prod.mk.injEq] at htitle
        right
        exact htitle.2.symm
    · rw [if_neg ht] at htitle
      simp only [Except.ok.injEq, Prod.mk.injEq] at htitle
      left
      exact htitle.2.symm
  refine ⟨?_, ?_, ?_⟩
  · unfold add_slide
    rw [runTool_loaded presentations currentId presentation_id pid p _ hres hfound]
    simp [add_slide_core, hlay, hadd, htitle, hdec]
  · rcases htr with h | h <;> subst h <;> decide
  · rcases htr with h | h <;> subst h <;> decide

/-- Witness for C8: with a single-entry background_colors list, the new
slide is added, the gradient delegates (set to fail if ever consulted)
are never invoked, and the call succeeds. -/
theorem C8_gradient_fallthrough_witness :
    add_slide sampleRegistry (some "deck")
      (fun q _ => .ok ({ q with slides := q.slides ++ [{}] },
        { name := some "Title Slide" }))
      (fun q _ => .ok q)
      (fun _ _ _ _ => .error "gradient path entered")
      (fun _ _ _ _ => .error "professional path entered")
      0 none (some "gradient") (some [[255, 0, 0]]) "horizontal" "modern_blue"
      none
      = (.addSlideOk "Added slide 1 with layout 0" 1 "Title Slide",
         setPres sampleRegistry "deck"
           { samplePres with slides := samplePres.slides ++ [{}] },
         ["ppt_utils.add_slide"]) := by
  have h := C8_gradient_fallthrough sampleRegistry (some "deck") none "deck"
    samplePres
    (fun q _ => .ok ({ q with slides := q.slides ++ [{}] },
      { name := some "Title Slide" }))
    (fun q _ => .ok q) 0 none (some [[255, 0, 0]]) "horizontal" "modern_blue"
    { samplePres with slides := samplePres.slides ++ [{}] }
    { samplePres with slides := samplePres.slides ++ [{}] }
    { name := some "Title Slide" } [] rfl rfl (by decide) (by decide) rfl rfl
  have h1 := (h (fun _ _ _ _ => .error "gradient path entered")
    (fun _ _ _ _ => .error "professional path entered")).1
  simpa using h1

/-! ## C9: enhance rejects base64 without touching anything -/

/-- C9: manage_image with operation enhance and source_type base64, on any
loaded presentation and valid slide index, returns the rejection error
without reading, writing or deleting any file (empty effect trace) and
without mutating the registry — for every choice of the file-system and
enhancement delegates. -/
theorem C9_enhance_rejects_base64
    (presentations : Registry) (currentId presentation_id : Option String)
    (pid : String) (p : Pres) (slide_index : Int)
    (hres : resolveId presentation_id currentId = some pid)
    (hfound : lookupPres presentations pid = some p)
    (hgood : ¬(slide_index < 0 ∨ (p.slides.length : Int) ≤ slide_index)) :
    ∀ osExists b64decode tempPath uAddImage uProfEnhance uPillowEnhance
      image_source left top width height enhancement_style brightness
      contrast saturation sharpness blur_radius filter_type output_path,
      manage_image presentations currentId osExists b64decode tempPath
          uAddImage uProfEnhance uPillowEnhance slide_index "enhance"
          image_source "base64" left top width height enhancement_style
          brightness contrast saturation sharpness blur_radius filter_type
          output_path presentation_id
        = (.err "Enhancement operation requires file path, not base64 data",
           presentations, []) := by
  intro osExists b64decode tempPath uAddImage uProfEnhance uPillowEnhance
    image_source left top width height enhancement_style brightness
    contrast saturation sharpness blur_radius filter_type output_path
  refine runTool_guard presentations currentId presentation_id pid p _ _ _
    hres hfound ?_
  simp [manage_image_core, hgood]

/-- Witness for C9: a concrete enhance/base64 call on the sample document
returns the rejection error, leaves the registry alone and performs no
file-system effect. -/
theorem C9_enhance_rejects_base64_witness :
    manage_image sampleRegistry (some "deck") (fun _ => true)
      (fun _ => .ok "bytes") "/tmp/t.png" (fun q _ _ _ _ _ => .ok q)
      (fun s _ => .ok s) (fun s _ _ _ _ _ _ _ => .ok s)
      0 "enhance" "aGVsbG8=" "base64" 1 1 none none none 1 1 1 1 0 none none
      none
      = (.err "Enhancement operation requires file path, not base64 data",
         sampleRegistry, []) :=
  C9_enhance_rejects_base64 sampleRegistry (some "deck") none "deck"
    samplePres 0 rfl rfl (by decide) _ _ _ _ _ _ "aGVsbG8=" 1 1 none none
    none 1 1 1 1 0 none none

end ContentTools
